import Mathlib

/-!
Verification of the HARPY OTP attack-orchestration engine
(`harpy_ai_otp.py`, `otp_attacker.py`, `run_harpy.py`) against its
natural-language specification.

The Python code is shallowly embedded: the engine's mutable object state
becomes an explicit `Engine` value threaded through the functions, the
network transport becomes a function argument from the outgoing request to
a `TransportOutcome`, and Python exceptions become explicit result
constructors.  Machine reals (`time.time()` durations, classifier
probabilities) are modelled as `Rat`; everything the proofs evaluate uses
only literal rationals, so no rounding behaviour is relied upon.
-/

namespace Harpy

/-- One attempt record, as built by `HarpyAIOTP.verify`
(`harpy_ai_otp.py` lines 93-98 and 103-114): the candidate `otp`, the HTTP
or sentinel `status`, the stripped and lowercased response `text`, and the
elapsed wall-clock `time` (0 for sentinel failures). -/
structure AttemptRecord where
  otp : String
  status : Int
  text : String
  time : Rat
deriving Repr, DecidableEq

/-- Outcome of one `self.session.post(...)` call inside
`HarpyAIOTP.verify`: either a response with status code, body text and
elapsed time, or one of the four `requests` exception classes caught at
`harpy_ai_otp.py` lines 103-114 (`ProxyError`, `ConnectionError`,
`Timeout`, any other `RequestException`). -/
inductive TransportOutcome where
  | ok (status : Int) (text : String) (elapsed : Rat)
  | proxyFailure
  | connectionFailure
  | timeoutFailure
  | requestFailure
deriving Repr, DecidableEq

/-- The outgoing verification request built by `HarpyAIOTP.verify`
(`harpy_ai_otp.py` lines 80-90): target URL, JSON payload fields, and the
proxy configuration actually passed to `session.post`. -/
structure Request where
  url : String
  user_id : String
  otp : String
  proxies : Option String
deriving Repr, DecidableEq

/-- Mutable state of a `HarpyAIOTP` instance (`harpy_ai_otp.py` lines
47-59).  `proxies` is the configured `burp_proxy` URL (the Python dict
maps both schemes to the same URL, so one optional string suffices).
`monitorAlive` is `none` when no `proxy_monitor` was supplied, otherwise
the monitor's `alive` flag as read by `verify`.  `encoderClasses` is
`self.encoder.classes_` after the last `fit_transform` (empty before any
training) and `classifierFitted` records whether `self.classifier.fit`
has succeeded.  The `session`, `debug` flag and `state_file` name do not
affect any verified property and are omitted. -/
structure Engine where
  base_url : String
  user_id : String
  otp_verify_path : String
  proxies : Option String
  monitorAlive : Option Bool
  history : List AttemptRecord
  encoderClasses : List String
  classifierFitted : Bool
deriving Repr, DecidableEq

/-- Python `str.lower()` restricted to the ASCII case mapping used by the
response texts in this development. -/
def pyLower (s : String) : String := String.mk (s.toList.map Char.toLower)

/-- Whitespace test for `str.strip()`. -/
def isWs (c : Char) : Bool := c = ' ' || c = '\t' || c = '\n' || c = '\r'

/-- Python `str.strip()`: drop leading and trailing whitespace. -/
def pyStrip (s : String) : String :=
  String.mk (((s.toList.dropWhile isWs).reverse.dropWhile isWs).reverse)

/-- Python `needle in hay` on strings: prefix test helper. -/
def charsLead (needle hay : List Char) : Bool :=
  match needle, hay with
  | [], _ => true
  | _ :: _, [] => false
  | a :: as, b :: bs => a = b && charsLead as bs

/-- Python `needle in hay` on strings: substring containment. -/
def charsContain (needle : List Char) : List Char → Bool
  | [] => needle.isEmpty
  | c :: rest => charsLead needle (c :: rest) || charsContain needle rest

/-- Python substring containment `needle in hay` lifted to `String`. -/
def strContains (hay needle : String) : Bool :=
  charsContain needle.toList hay.toList

/-- Proxy routing decision of `HarpyAIOTP.verify` (`harpy_ai_otp.py`
lines 84-87): start from the configured proxies; if a proxy monitor is
attached and its `alive` flag is false, drop them and connect directly. -/
def currentProxies (e : Engine) : Option String :=
  match e.monitorAlive with
  | some false => none
  | _ => e.proxies

/-- The request `HarpyAIOTP.verify` sends: URL from `base_url` and
`otp_verify_path`, payload keyed by `user_id` and `otp`, proxies from
`currentProxies` (`harpy_ai_otp.py` lines 80-90). -/
def verifyRequest (e : Engine) (otp : String) : Request :=
  { url := e.base_url ++ e.otp_verify_path
    user_id := e.user_id
    otp := otp
    proxies := currentProxies e }

/-- Embedding of `HarpyAIOTP.verify` (`harpy_ai_otp.py` lines 69-114).
On a transport response it builds the record with stripped, lowercased
text, appends it to `self.history` and returns it.  In each of the four
`except` branches it returns the sentinel record directly; note that the
source `return` statements at lines 105, 108, 111 and 114 do not append
to `self.history`. -/
def verify (e : Engine) (tr : Request → TransportOutcome) (otp : String) :
    Engine × AttemptRecord :=
  match tr (verifyRequest e otp) with
  | .ok s t el =>
      let r : AttemptRecord := ⟨otp, s, pyLower (pyStrip t), el⟩
      ({ e with history := e.history ++ [r] }, r)
  | .proxyFailure => (e, ⟨otp, 999, "proxy_error", 0⟩)
  | .connectionFailure => (e, ⟨otp, 998, "connection_error", 0⟩)
  | .timeoutFailure => (e, ⟨otp, 997, "timeout_error", 0⟩)
  | .requestFailure => (e, ⟨otp, 996, "request_error", 0⟩)

/-- A fresh engine for the scenario target `https://t.test`, user `u1`,
no proxy, no monitor, empty history, untrained model. -/
def engineA : Engine :=
  { base_url := "https://t.test"
    user_id := "u1"
    otp_verify_path := "/auth/verify-otp"
    proxies := none
    monitorAlive := none
    history := []
    encoderClasses := []
    classifierFitted := false }

/-- Success predicate shared by the strategies (`harpy_ai_otp.py` lines
203 and 222, `otp_attacker.py` line 34): the response text contains
"success" or the status equals 200. -/
def isSuccess (r : AttemptRecord) : Bool :=
  strContains r.text "success" || r.status == 200

/-- Training label of one record (`harpy_ai_otp.py` line 136): "success"
if the text contains "success" or the status is 200, else "fail". -/
def label (r : AttemptRecord) : String :=
  if strContains r.text "success" || r.status == 200 then "success" else "fail"

/-- Modelling `self.encoder.fit_transform(y)`'s effect on
`self.encoder.classes_`: scikit-learn's `LabelEncoder` sets `classes_`
to `np.unique(y)`, the sorted distinct label values.  `train_model` only
ever produces labels "fail" and "success" (line 136), and
"fail" < "success" lexicographically, so on that domain `np.unique`
computes exactly this. -/
def encoderFit (labels : List String) : List String :=
  (if "fail" ∈ labels then ["fail"] else []) ++
  (if "success" ∈ labels then ["success"] else [])

/-- Embedding of `HarpyAIOTP.train_model` (`harpy_ai_otp.py` lines
116-145).  On an empty history it logs and returns with the state
unchanged.  Otherwise it fits the encoder and the classifier on the
derived labels.  Note: scikit-learn's `RandomForestClassifier.fit`
succeeds on any non-empty label list, including a single-class one (no
`ValueError` is raised for a one-class `y`), so the `except` branches at
lines 142-145 are not reached and the classifier ends up fitted.  The
feature matrix `X` is omitted: no verified property depends on the
fitted parameters, only on fittedness and the encoder classes. -/
def train_model (e : Engine) : Engine :=
  if e.history = [] then e
  else
    let labels := e.history.map label
    { e with encoderClasses := encoderFit labels, classifierFitted := true }

/-- The guard of `HarpyAIOTP.ai_attack` (`harpy_ai_otp.py` line 186) is
`hasattr(self.classifier, 'predict_proba')`.  `self.classifier` is
always a `RandomForestClassifier` (line 59), and that class defines
`predict_proba` unconditionally as an ordinary method, so the attribute
exists whether or not the classifier has been fitted: the guard is
constantly true. -/
def hasPredictProba (_e : Engine) : Bool := true

/-- Embedding of `HarpyAIOTP.predict_likelihood` (`harpy_ai_otp.py`
lines 147-176).  If the classifier is unfitted, `predict_proba` raises
`NotFittedError`, which the `except Exception` branch at line 174 turns
into 0.0.  If it is fitted but "success" is not among the encoder's
classes, the `else` branch at lines 171-173 returns 0.0.  Otherwise the
probability the fitted classifier assigns to the "success" class is
returned; that value is abstracted as the parameter `proba`, since the
fitted ensemble's numerics are outside the embedded scope. -/
def predict_likelihood (e : Engine) (proba : String → Rat) (otp : String) : Rat :=
  if e.classifierFitted then
    if "success" ∈ e.encoderClasses then proba otp else 0
  else 0

/-- Python `f"{i:0{width}d}"`: the decimal digits of `i`, left-padded
with zeros to `width` (longer when `i` needs more digits). -/
def zeroPad (width : Nat) (i : Nat) : String :=
  let s := toString i
  String.mk (List.replicate (width - s.length) '0') ++ s

/-- Result of an attack-loop body.  `ok` is normal loop exit.
`nameErrorFore` models the `NameError` raised at `harpy_ai_otp.py`
lines 204 and 223: the success branches evaluate `Fore.GREEN`, but the
name `Fore` is never imported in `harpy_ai_otp.py` (colorama is imported
only in `run_harpy.py`), so the interpreter raises and the exception
propagates out of the attack method.  The carried engine is the state at
the moment of the raise (the hit record was already appended). -/
inductive AttackResult where
  | ok (e : Engine)
  | nameErrorFore (e : Engine)
deriving Repr, DecidableEq

/-- Engine state carried by an attack result. -/
def AttackResult.engine : AttackResult → Engine
  | .ok e => e
  | .nameErrorFore e => e

/-- Whether the attack ended in the propagating `NameError`. -/
def AttackResult.raised : AttackResult → Bool
  | .ok _ => false
  | .nameErrorFore _ => true

/-- Loop of `HarpyAIOTP.ai_attack` (`harpy_ai_otp.py` lines 198-208)
over the ranked candidate list, also returning the list of candidates
actually submitted to `verify`.  Per iteration: verify, increment the
attempt counter, raise on a hit (line 204), stop after `max_attempts`
attempts. -/
def aiLoop (tr : Request → TransportOutcome) (max_attempts : Nat) :
    Engine → List String → Nat → AttackResult × List String
  | e, [], _ => (.ok e, [])
  | e, otp :: rest, attempts =>
    let step := verify e tr otp
    let attempts' := attempts + 1
    if isSuccess step.2 then (.nameErrorFore step.1, [otp])
    else if max_attempts ≤ attempts' then (.ok step.1, [otp])
    else
      let next := aiLoop tr max_attempts step.1 rest attempts'
      (next.1, otp :: next.2)

/-- Stable insertion step for descending sort by key: `x` is placed
before the first element whose key is less than or equal to `key x`. -/
def insDesc (key : String → Rat) (x : String) : List String → List String
  | [] => [x]
  | y :: ys => if key y ≤ key x then x :: y :: ys else y :: insDesc key x ys

/-- Model of Python `sorted(candidates, key=k, reverse=True)`: the
stable descending sort by key — elements in descending key order, equal
keys keeping their original relative order.  Python's sort guarantees
exactly this extensional behaviour, which this insertion sort computes:
each element is inserted before the equal-or-smaller keys of the
elements that followed it. -/
def sortDescBy (key : String → Rat) : List String → List String
  | [] => []
  | x :: xs => insDesc key x (sortDescBy key xs)

/-- Embedding of `HarpyAIOTP.ai_attack` (`harpy_ai_otp.py` lines
178-208), returning the result and the submitted candidates.  The guard
at line 186 tests `hasattr(self.classifier, 'predict_proba')`
(see `hasPredictProba`); when it is false the method returns with no
attempts.  Otherwise the `10^digits` zero-padded candidates are ranked
by `predict_likelihood` descending and submitted in ranked order. -/
def ai_attack (e : Engine) (tr : Request → TransportOutcome)
    (proba : String → Rat) (max_attempts digits : Nat) :
    AttackResult × List String :=
  if hasPredictProba e then
    let candidates := (List.range (10 ^ digits)).map (zeroPad digits)
    let ranked := sortDescBy (predict_likelihood e proba) candidates
    aiLoop tr max_attempts e ranked 0
  else (.ok e, [])

/-- Loop of `HarpyAIOTP.adaptive_attack` (`harpy_ai_otp.py` lines
219-224): `for i in range(max_attempts)`, submit `zeroPad digits i`,
raise on a hit (line 223), otherwise continue; also returns the
submitted candidates. -/
def adaptiveLoop (tr : Request → TransportOutcome) (digits : Nat) :
    Engine → Nat → Nat → AttackResult × List String
  | e, _, 0 => (.ok e, [])
  | e, i, fuel + 1 =>
    let otp := zeroPad digits i
    let step := verify e tr otp
    if isSuccess step.2 then (.nameErrorFore step.1, [otp])
    else
      let next := adaptiveLoop tr digits step.1 (i + 1) fuel
      (next.1, otp :: next.2)

/-- Embedding of `HarpyAIOTP.adaptive_attack` (`harpy_ai_otp.py` lines
210-224): the sequential strategy, iterating `i` over
`range(max_attempts)` with no cap at `10^digits`. -/
def adaptive_attack (e : Engine) (tr : Request → TransportOutcome)
    (max_attempts digits : Nat) : AttackResult × List String :=
  adaptiveLoop tr digits e 0 max_attempts

/-- A stub transport that always answers with HTTP status 400 and body
"denied", as in the spec's sequential-strategy scenario. -/
def stubTransport400 : Request → TransportOutcome :=
  fun _ => TransportOutcome.ok 400 "denied" 0

/-- A stub transport that always answers with HTTP status 200, so the
first verification is a hit. -/
def stubTransport200 : Request → TransportOutcome :=
  fun _ => TransportOutcome.ok 200 "ok" 0

/-- An engine whose history holds a single failed attempt, so every
training label is "fail". -/
def engineB : Engine :=
  { engineA with history := [⟨"111", 400, "denied", 0⟩] }

/-- State of an `OTPAttacker` (`otp_attacker.py` lines 7-10): target
base URL and user identity.  The session object carries no state any
verified property depends on. -/
structure OTPAttacker where
  base_url : String
  user_id : String
deriving Repr, DecidableEq

/-- Embedding of `OTPAttacker.verify_otp` (`otp_attacker.py` lines
19-24): posts the `{user_id, otp}` payload to the verification path and
returns the raw `(status, text)` pair.  The body touches no other state;
in particular it maintains no attempt history. -/
def verify_otp (a : OTPAttacker) (tr : Request → Int × String)
    (otp : String) : Int × String :=
  tr { url := a.base_url ++ "/auth/verify-otp"
       user_id := a.user_id
       otp := otp
       proxies := none }

/-- Embedding of `OTPAttacker.race_attack` (`otp_attacker.py` lines
48-57): `pool.map(lambda _: attempt(), range(attempts))` dispatches one
`verify_otp` call per element of `range(attempts)` and collects the
results in the order of the mapped iterable, regardless of completion
order.  The `history` argument is the engine's attempt history (the
only attempt history in the program, owned by `HarpyAIOTP.history`); it
is returned unchanged because no statement in `race_attack` or
`verify_otp` appends to any history. -/
def race_attack (a : OTPAttacker) (tr : Request → Int × String)
    (known_otp : String) (attempts : Nat) (history : List AttemptRecord) :
    List AttemptRecord × List (Int × String) :=
  (history, (List.range attempts).map (fun _ => verify_otp a tr known_otp))

/-- An attacker aimed at the scenario target. -/
def attackerA : OTPAttacker := { base_url := "https://t.test", user_id := "u1" }

/-- A raw-transport stub that always answers 400/denied. -/
def stubRaw400 : Request → Int × String := fun _ => (400, "denied")

/-- State of a `ProxyMonitor` (`run_harpy.py` lines 24-39): `force` is
the abort flag, `running` the cooperative-shutdown flag, `alive` the
shared liveness flag that `HarpyAIOTP.verify` reads. -/
structure ProxyMonitor where
  force : Bool
  running : Bool
  alive : Bool
deriving Repr, DecidableEq

/-- Result of running the monitor loop `ProxyMonitor._monitor`
(`run_harpy.py` lines 47-58).  `fuelOut` means the while-loop was still
probing when the observation window (the fuel) ended; `stopped` means
the loop exited because `running` was false; `fellBack` is the
non-force first-failure exit at lines 51, 56-57 (`alive` set to false,
fallback logged, loop broken, never probing again); `aborted` is the
`os._exit(1)` hard shutdown at line 54.  Each carries the total number
of probes performed. -/
inductive MonitorOutcome where
  | fuelOut (m : ProxyMonitor) (probes : Nat)
  | stopped (m : ProxyMonitor) (probes : Nat)
  | fellBack (m : ProxyMonitor) (probes : Nat)
  | aborted (probes : Nat)
deriving Repr, DecidableEq

/-- Embedding of `ProxyMonitor._monitor` (`run_harpy.py` lines 47-58).
`probe k` is the result of the k-th `proxy_alive` reachability check,
`k` counts the probes already made, and `fuel` bounds the number of
loop iterations observed (the sleep between probes is irrelevant to the
ordering properties verified here). -/
def monitorLoop (probe : Nat → Bool) : ProxyMonitor → Nat → Nat → MonitorOutcome
  | m, k, 0 => .fuelOut m k
  | m, k, fuel + 1 =>
    if m.running then
      if probe k then monitorLoop probe m (k + 1) fuel
      else
        let m' := { m with alive := false }
        if m'.force then .aborted (k + 1) else .fellBack m' (k + 1)
    else .stopped m k

/-- Monitor in its initial state for a reachable proxy, non-force. -/
def monitorA : ProxyMonitor := { force := false, running := true, alive := true }

/-- Engine configured with a proxy and a monitor whose `alive` flag has
gone false. -/
def engineC : Engine :=
  { engineA with proxies := some "http://127.0.0.1:8080", monitorAlive := some false }

/-- JSON values as written by `json.dump` and read by `json.load`.
Numbers are modelled as rationals: Python round-trips every number it
wrote itself (ints exactly, floats via repr which parses back to the
identical value), so a lossless numeric model is faithful for the
save/load pair. -/
inductive Json where
  | null
  | bool (b : Bool)
  | num (q : Rat)
  | str (s : String)
  | arr (elems : List Json)
  | obj (fields : List (String × Json))

/-- The JSON object `json.dump` writes for one record
(`HarpyAIOTP.save_state`, `harpy_ai_otp.py` lines 250-257): the dict
built by `verify` with its keys in insertion order. -/
def recordToJson (r : AttemptRecord) : Json :=
  .obj [("otp", .str r.otp), ("status", .num (r.status : Rat)),
        ("text", .str r.text), ("time", .num r.time)]

/-- Embedding of `HarpyAIOTP.save_state` (`harpy_ai_otp.py` lines
250-257): the file content is the JSON array of the history's records
in insertion order. -/
def save_state (h : List AttemptRecord) : Json :=
  .arr (h.map recordToJson)

/-- Reading one record back from parsed JSON: the object shape written
by `recordToJson`, with an integral status.  Any other shape yields
`none`. -/
def recordFromJson : Json → Option AttemptRecord
  | .obj [("otp", .str o), ("status", .num s), ("text", .str t), ("time", .num ti)] =>
      if s.den = 1 then some ⟨o, s.num, t, ti⟩ else none
  | _ => none

/-- Decoding of a parsed JSON array's elements into a history. -/
def decodeHistory : List Json → Option (List AttemptRecord)
  | [] => some []
  | j :: rest =>
      match recordFromJson j, decodeHistory rest with
      | some r, some rs => some (r :: rs)
      | _, _ => none

/-- The history `json.load` yields from a file holding a history array:
the records field-for-field in file order (`HarpyAIOTP.load_state`,
`harpy_ai_otp.py` line 263). -/
def historyFromJson : Json → Option (List AttemptRecord)
  | .arr elems => decodeHistory elems
  | _ => none

/-- What opening and parsing the state file yields in
`HarpyAIOTP.load_state` (`harpy_ai_otp.py` lines 259-270): the file may
be missing (`FileNotFoundError`), syntactically malformed
(`json.JSONDecodeError`), or parse as a history array — the shape
`save_state` writes — carried here already decoded. -/
inductive FileLoadOutcome where
  | missing
  | malformed
  | parsed (h : List AttemptRecord)
deriving Repr, DecidableEq

/-- Embedding of `HarpyAIOTP.load_state` (`harpy_ai_otp.py` lines
259-270).  On a successful parse the parsed value is assigned to
`self.history` (line 263).  `FileNotFoundError` is caught at line 265
and logged, and `json.JSONDecodeError` at line 267 and logged: in both
of those branches the method returns with `self.history` untouched,
since the assignment at line 263 never ran. -/
def load_state (e : Engine) (f : FileLoadOutcome) : Engine :=
  match f with
  | .missing => e
  | .malformed => e
  | .parsed h => { e with history := h }

/-- A concrete two-record history for witnesses. -/
def historyA : List AttemptRecord :=
  [⟨"123", 400, "invalid otp", 0⟩, ⟨"124", 997, "timeout_error", 0⟩]

end Harpy

namespace Harpy

/-- C1 counterexample: a `verify` call whose transport raises `Timeout`
returns the 997 sentinel record without appending anything to the
history, so the history does not grow by one record as the claim
requires. -/
theorem C1_counterexample :
    (verify engineA (fun _ => TransportOutcome.timeoutFailure) "123").1.history.length ≠
      engineA.history.length + 1 := by
  decide

/-- C1 (amended): a call to `verify` appends exactly one record to the
history when the transport produces a response, and appends nothing when
the call is classified into one of the four sentinel failure outcomes
(statuses 996-999), whose record is only returned to the caller. -/
theorem C1_theorem (e : Engine) (tr : Request → TransportOutcome) (otp : String) :
    (verify e tr otp).1.history =
      (match tr (verifyRequest e otp) with
       | .ok s t el => e.history ++ [⟨otp, s, pyLower (pyStrip t), el⟩]
       | _ => e.history) := by
  unfold verify
  cases tr (verifyRequest e otp) <;> rfl

/-- C6: the sentinel classification in `verify` is deterministic: a
proxy-layer failure yields the record (999, "proxy_error"), a connection
failure (998, "connection_error"), a timeout (997, "timeout_error") and
any other transport failure (996, "request_error"), each with elapsed
time 0. -/
theorem C6_theorem (e : Engine) (tr : Request → TransportOutcome) (otp : String) :
    (tr (verifyRequest e otp) = .proxyFailure →
      (verify e tr otp).2 = ⟨otp, 999, "proxy_error", 0⟩) ∧
    (tr (verifyRequest e otp) = .connectionFailure →
      (verify e tr otp).2 = ⟨otp, 998, "connection_error", 0⟩) ∧
    (tr (verifyRequest e otp) = .timeoutFailure →
      (verify e tr otp).2 = ⟨otp, 997, "timeout_error", 0⟩) ∧
    (tr (verifyRequest e otp) = .requestFailure →
      (verify e tr otp).2 = ⟨otp, 996, "request_error", 0⟩) := by
  refine ⟨fun h => ?_, fun h => ?_, fun h => ?_, fun h => ?_⟩ <;>
    · unfold verify
      rw [h]

/-- C6 witness: the four sentinel classifications evaluated on the
concrete engine `engineA` and candidate "123". -/
theorem C6_witness :
    (verify engineA (fun _ => TransportOutcome.proxyFailure) "123").2 =
      ⟨"123", 999, "proxy_error", 0⟩ ∧
    (verify engineA (fun _ => TransportOutcome.connectionFailure) "123").2 =
      ⟨"123", 998, "connection_error", 0⟩ ∧
    (verify engineA (fun _ => TransportOutcome.timeoutFailure) "123").2 =
      ⟨"123", 997, "timeout_error", 0⟩ ∧
    (verify engineA (fun _ => TransportOutcome.requestFailure) "123").2 =
      ⟨"123", 996, "request_error", 0⟩ :=
  ⟨(C6_theorem engineA _ "123").1 rfl,
   (C6_theorem engineA _ "123").2.1 rfl,
   (C6_theorem engineA _ "123").2.2.1 rfl,
   (C6_theorem engineA _ "123").2.2.2 rfl⟩

end Harpy

namespace Harpy

/-- C3: evaluation of `ai_attack` on an engine whose classifier was
never fitted.  Because `hasattr(self.classifier, 'predict_proba')` is
constantly true for a `RandomForestClassifier`, the guard at
`harpy_ai_otp.py` line 186 does not fire: with `max_attempts = 1` and
`digits = 1` the attack submits one candidate and appends one record,
instead of the zero attempts the claim requires. -/
theorem C3_code_behaviour :
    engineA.classifierFitted = false ∧
    (ai_attack engineA stubTransport400 (fun _ => 0) 1 1).2.length = 1 ∧
    (ai_attack engineA stubTransport400 (fun _ => 0) 1 1).1.engine.history.length = 1 := by
  decide

/-- C4 counterexample: training on the all-fail history of `engineB`
does not leave the model untrained — the single-class fit succeeds and
the classifier ends up fitted. -/
theorem C4_counterexample :
    ¬ ((train_model engineB).classifierFitted = false) := by
  decide

/-- C4 (amended): on a non-empty history whose records all carry the
"fail" label, `train_model` completes without raising, fits the
classifier on the single class (so the model is trained, with encoder
classes exactly ["fail"]), and every subsequent `predict_likelihood`
call returns exactly 0 because "success" is absent from the encoder's
classes. -/
theorem C4_theorem (e : Engine) (hne : e.history ≠ [])
    (hfail : ∀ r ∈ e.history, label r = "fail") :
    (train_model e).classifierFitted = true ∧
    (train_model e).encoderClasses = ["fail"] ∧
    ∀ (proba : String → Rat) (otp : String),
      predict_likelihood (train_model e) proba otp = 0 := by
  have hmem : "fail" ∈ e.history.map label := by
    obtain ⟨r, hr⟩ := List.exists_mem_of_ne_nil e.history hne
    exact List.mem_map.mpr ⟨r, hr, hfail r hr⟩
  have hnsucc : "success" ∉ e.history.map label := by
    intro h
    obtain ⟨r, hr, hl⟩ := List.mem_map.mp h
    rw [hfail r hr] at hl
    exact absurd hl (by decide)
  have hfit : encoderFit (e.history.map label) = ["fail"] := by
    unfold encoderFit
    rw [if_pos hmem, if_neg hnsucc]
    rfl
  have htm : train_model e =
      { e with encoderClasses := ["fail"], classifierFitted := true } := by
    unfold train_model
    rw [if_neg hne]
    show { e with encoderClasses := encoderFit (e.history.map label),
                  classifierFitted := true } = _
    rw [hfit]
  refine ⟨by rw [htm], by rw [htm], ?_⟩
  intro proba otp
  rw [htm]
  simp [predict_likelihood]

/-- C4 witness: the amended statement evaluated on the concrete all-fail
engine `engineB` and candidate "123". -/
theorem C4_witness :
    (train_model engineB).classifierFitted = true ∧
    (train_model engineB).encoderClasses = ["fail"] ∧
    predict_likelihood (train_model engineB) (fun _ => 1) "123" = 0 :=
  ⟨(C4_theorem engineB (by decide) (by decide)).1,
   (C4_theorem engineB (by decide) (by decide)).2.1,
   (C4_theorem engineB (by decide) (by decide)).2.2 (fun _ => 1) "123"⟩

/-- C5: when a verification returns a hit (here status 200 on the first
candidate), both `adaptive_attack` and `ai_attack` raise: their success
branches evaluate `Fore.GREEN` but `Fore` is not a name in
`harpy_ai_otp.py`'s module namespace, so a `NameError` propagates and
the attack does not terminate normally. -/
theorem C5_code_raises :
    (adaptive_attack engineA stubTransport200 5 1).1.raised = true ∧
    (ai_attack engineA stubTransport200 (fun _ => 0) 5 1).1.raised = true := by
  decide

/-- Every candidate submitted by the adaptive loop started at index `i`
with the given fuel is the zero-padded string of some index `n` with
`i ≤ n < i + fuel`. -/
theorem adaptiveLoop_submitted_mem (tr : Request → TransportOutcome) (digits : Nat) :
    ∀ (fuel : Nat) (e : Engine) (i : Nat) (s : String),
      s ∈ (adaptiveLoop tr digits e i fuel).2 →
      ∃ n, i ≤ n ∧ n < i + fuel ∧ s = zeroPad digits n := by
  intro fuel
  induction fuel with
  | zero =>
      intro e i s h
      simp [adaptiveLoop] at h
  | succ f ih =>
      intro e i s h
      simp only [adaptiveLoop] at h
      rcases Bool.eq_false_or_eq_true
          (isSuccess (verify e tr (zeroPad digits i)).2) with hs | hs
      · rw [hs] at h
        simp at h
        exact ⟨i, le_rfl, by omega, h⟩
      · rw [hs] at h
        simp at h
        rcases h with h | h
        · exact ⟨i, le_rfl, by omega, h⟩
        · obtain ⟨n, h1, h2, h3⟩ :=
            ih (verify e tr (zeroPad digits i)).1 (i + 1) s h
          exact ⟨n, by omega, by omega, h3⟩

/-- C7 (amended): with `digits = 3`, `maxAttempts = 5` and a stub
transport that always returns status 400, the sequential strategy
submits exactly "000","001","002","003","004" in that literal order,
ends normally after the fifth with no hit in the history; and whenever
`maxAttempts` does not exceed `10^digits`, every submitted candidate is
a zero-padded index inside the space `0 … 10^digits - 1`.  (The source
iterates `range(max_attempts)` without capping at `10^digits`, so the
bound `maxAttempts ≤ 10^digits` is needed — see the counterexample.) -/
theorem C7_theorem :
    ((adaptive_attack engineA stubTransport400 5 3).2 =
        ["000", "001", "002", "003", "004"] ∧
     (adaptive_attack engineA stubTransport400 5 3).1.raised = false ∧
     (adaptive_attack engineA stubTransport400 5 3).1.engine.history.all
        (fun r => !isSuccess r) = true) ∧
    ∀ (e : Engine) (tr : Request → TransportOutcome) (max_attempts digits : Nat),
      max_attempts ≤ 10 ^ digits →
      ∀ s ∈ (adaptive_attack e tr max_attempts digits).2,
        ∃ n, n < 10 ^ digits ∧ s = zeroPad digits n := by
  constructor
  · exact ⟨by decide, by decide, by decide⟩
  · intro e tr ma d hle s hmem
    obtain ⟨n, h1, h2, h3⟩ := adaptiveLoop_submitted_mem tr d ma e 0 s hmem
    exact ⟨n, by omega, h3⟩

/-- C7 witness: the general part applied at the scenario itself —
"002" was submitted by the five-attempt run and is a point of the
three-digit candidate space. -/
theorem C7_witness : ∃ n, n < 10 ^ 3 ∧ "002" = zeroPad 3 n :=
  C7_theorem.2 engineA stubTransport400 5 3 (by decide) "002" (by decide)

/-- C7 counterexample: running the sequential strategy with `digits = 1`
and `maxAttempts = 11` against the always-400 transport submits the
candidate "10", which is not the zero-padding of any index below
`10^1` — a candidate outside the space, refuting the claim's "never
submits a candidate outside the space". -/
theorem C7_counterexample :
    "10" ∈ (adaptive_attack engineA stubTransport400 11 1).2 ∧
    ∀ n, n < 10 ^ 1 → zeroPad 1 n ≠ "10" := by
  decide

end Harpy

namespace Harpy

/-- C2 counterexample: the race strategy with `attempts = 2` started
from an empty attempt history leaves that history empty — it does not
append the two records the claim requires, because
`OTPAttacker.verify_otp` records nothing. -/
theorem C2_counterexample :
    ¬ ((race_attack attackerA stubRaw400 "123456" 2 []).1.length = 0 + 2) := by
  decide

/-- C2 (amended): for every `N ≥ 1`, the race strategy issues one
`verify_otp` call for the fixed candidate per element of `range(N)` and
returns exactly `N` results in dispatch order, but it appends no record
to the attempt history, which `OTPAttacker` does not maintain. -/
theorem C2_theorem (a : OTPAttacker) (tr : Request → Int × String)
    (otp : String) (N : Nat) (h : List AttemptRecord) (_hN : 1 ≤ N) :
    (race_attack a tr otp N h).2.length = N ∧
    (race_attack a tr otp N h).2 =
      (List.range N).map (fun _ => verify_otp a tr otp) ∧
    (race_attack a tr otp N h).1 = h := by
  refine ⟨?_, rfl, rfl⟩
  simp [race_attack]

/-- C2 witness: the amended statement evaluated at `N = 3` with the
always-400 stub transport and an empty starting history. -/
theorem C2_witness :
    (race_attack attackerA stubRaw400 "123456" 3 []).2.length = 3 ∧
    (race_attack attackerA stubRaw400 "123456" 3 []).2 =
      (List.range 3).map (fun _ => verify_otp attackerA stubRaw400 "123456") ∧
    (race_attack attackerA stubRaw400 "123456" 3 []).1 = [] :=
  C2_theorem attackerA stubRaw400 "123456" 3 [] (by decide)

/-- The monitor loop, entered running in non-force mode with the first
probe failure at offset `j` inside the fuel window, performs exactly
`j + 1` probes, sets `alive` to false and exits through the fallback
branch — it never probes again. -/
theorem monitorLoop_first_failure (probe : Nat → Bool) (m : ProxyMonitor)
    (hf : m.force = false) (hr : m.running = true) :
    ∀ (j k fuel : Nat), (∀ i, i < j → probe (k + i) = true) →
      probe (k + j) = false → j < fuel →
      monitorLoop probe m k fuel = .fellBack { m with alive := false } (k + j + 1) := by
  intro j
  induction j with
  | zero =>
      intro k fuel hup hdown hfuel
      obtain ⟨f, rfl⟩ : ∃ f, fuel = f + 1 := ⟨fuel - 1, by omega⟩
      rw [Nat.add_zero] at hdown
      simp [monitorLoop, hr, hdown, hf]
  | succ j ih =>
      intro k fuel hup hdown hfuel
      obtain ⟨f, rfl⟩ : ∃ f, fuel = f + 1 := ⟨fuel - 1, by omega⟩
      have h0 : probe k = true := by
        have := hup 0 (by omega)
        simpa using this
      have hrec := ih (k + 1) f
        (fun i hi => by
          have := hup (i + 1) (by omega)
          have harith : k + (i + 1) = k + 1 + i := by omega
          rwa [harith] at this)
        (by
          have harith : k + (j + 1) = k + 1 + j := by omega
          rwa [harith] at hdown)
        (by omega)
      simp only [monitorLoop, hr, h0, if_true]
      rw [show k + (j + 1) + 1 = k + 1 + j + 1 by omega]
      rw [hr] at hrec
      exact hrec

/-- C8: a monitor run with `forceAbort = false` that observes its first
probe failure at probe `j` (within the fuel window) exits through the
fallback branch after exactly `j + 1` probes with `alive` set to false
— the loop terminates and never re-probes — and a `verify` call made
while the monitor's `alive` flag is false sends its request with no
proxy applied. -/
theorem C8_theorem (m : ProxyMonitor) (probe : Nat → Bool) (j fuel : Nat)
    (hf : m.force = false) (hr : m.running = true)
    (hup : ∀ i, i < j → probe i = true) (hdown : probe j = false)
    (hfuel : j < fuel) (e : Engine) (he : e.monitorAlive = some false)
    (otp : String) :
    monitorLoop probe m 0 fuel =
      MonitorOutcome.fellBack { m with alive := false } (j + 1) ∧
    (verifyRequest e otp).proxies = none := by
  constructor
  · have hrun := monitorLoop_first_failure probe m hf hr j 0 fuel
      (fun i hi => by simpa using hup i hi) (by simpa using hdown) hfuel
    simpa using hrun
  · simp [verifyRequest, currentProxies, he]

/-- C8 witness: a monitor whose very first probe fails, with the
concrete engine `engineC` carrying the resulting dead `alive` flag. -/
theorem C8_witness :
    monitorLoop (fun _ => false) monitorA 0 1 =
      MonitorOutcome.fellBack { monitorA with alive := false } 1 ∧
    (verifyRequest engineC "123").proxies = none :=
  C8_theorem monitorA (fun _ => false) 0 1 rfl rfl
    (fun i hi => absurd hi (Nat.not_lt_zero i)) rfl (by decide) engineC rfl "123"

/-- Decoding inverts encoding on a single record; the status written as
a JSON number is integral, so it reads back as the same integer. -/
theorem recordFromJson_recordToJson (r : AttemptRecord) :
    recordFromJson (recordToJson r) = some r := by
  show (if ((r.status : Rat)).den = 1
        then some ⟨r.otp, ((r.status : Rat)).num, r.text, r.time⟩
        else none) = some r
  rw [Rat.den_intCast, Rat.num_intCast]
  simp

/-- Decoding inverts encoding elementwise on a record list. -/
theorem decodeHistory_map_recordToJson (h : List AttemptRecord) :
    decodeHistory (h.map recordToJson) = some h := by
  induction h with
  | nil => rfl
  | cons r rest ih =>
      show decodeHistory (recordToJson r :: rest.map recordToJson) = some (r :: rest)
      unfold decodeHistory
      rw [recordFromJson_recordToJson, ih]

/-- C9: saving a non-empty history and parsing the saved file back
yields the same history, field-for-field, in the same order. -/
theorem C9_theorem (h : List AttemptRecord) (_hne : h ≠ []) :
    historyFromJson (save_state h) = some h := by
  show decodeHistory (h.map recordToJson) = some h
  exact decodeHistory_map_recordToJson h

/-- C9 witness: the round trip evaluated on the concrete two-record
history `historyA`. -/
theorem C9_witness :
    historyA ≠ [] ∧ historyFromJson (save_state historyA) = some historyA :=
  ⟨by decide, C9_theorem historyA (by decide)⟩

/-- C10 counterexample: loading with the state file missing on an
engine whose history already holds a record does not yield an empty
history — the history is left as it was. -/
theorem C10_counterexample :
    ¬ ((load_state engineB FileLoadOutcome.missing).history = []) := by
  decide

/-- C10 (amended): loading with a missing state file logs and returns
with the engine unchanged, and loading malformed content logs the
condition and likewise returns with the engine unchanged — neither
raises to the caller; in particular an engine whose history is empty
(such as a fresh instance) still has an empty history afterwards. -/
theorem C10_theorem (e : Engine) :
    load_state e FileLoadOutcome.missing = e ∧
    load_state e FileLoadOutcome.malformed = e ∧
    (e.history = [] →
      (load_state e FileLoadOutcome.missing).history = [] ∧
      (load_state e FileLoadOutcome.malformed).history = []) :=
  ⟨rfl, rfl, fun h => ⟨h, h⟩⟩

/-- C10 witness: the amended statement evaluated on the fresh engine
`engineA`, whose history is empty. -/
theorem C10_witness :
    load_state engineA FileLoadOutcome.missing = engineA ∧
    (load_state engineA FileLoadOutcome.missing).history = [] :=
  ⟨(C10_theorem engineA).1, ((C10_theorem engineA).2.2 rfl).1⟩

end Harpy
